import Mathlib

/-!
Shallow embedding of the CreateArchitect AI router (aiRouter.js) and the
user-style store (userProfile.js).

Modelling conventions:
- JSON values are an inductive `Json`; numbers are modelled as integers
  (the claims only involve integer-valued fields).
- The two language-model invocations are oracles: a `ModelCall` value is
  either a thrown error (a rejected promise) or the returned value.  A
  blueprint-model response is a `ParsedText`: the raw response text
  together with the outcome of running the JavaScript built-in
  `JSON.parse` on it, so that the pipeline code downstream of the parse
  is embedded exactly while the parser itself stays the external oracle
  it is in the source.
- JavaScript truthiness is the Boolean `truthy` on an optional `Json`
  (`none` stands for `undefined`).
- The on-disk persistence stores (conversation history, schematics,
  blueprint files, style-profile file) are explicit state threaded
  through the handlers; store operations are assumed total, matching the
  external-collaborator contracts of the design.
-/

namespace CreateArchitect

/-- JSON value, as produced by a successful JSON.parse.  Numbers are
modelled as integers. -/
inductive Json where
  | null : Json
  | bool (b : Bool) : Json
  | num (n : Int) : Json
  | str (s : String) : Json
  | arr (elems : List Json) : Json
  | obj (fields : List (String × Json)) : Json

/-- First-match association lookup inside a JSON object, mirroring
JavaScript property access on a parsed object. -/
def lookupField : List (String × Json) → String → Option Json
  | [], _ => none
  | (k, v) :: rest, key => if k == key then some v else lookupField rest key

/-- Property access `j[key]`; `none` stands for `undefined` (also for
access on a non-object, as the guarded code never dereferences those). -/
def getField : Json → String → Option Json
  | .obj fields, key => lookupField fields key
  | _, _ => none

/-- Optional-chaining property access `v?.[key]`. -/
def optGet (v : Option Json) (key : String) : Option Json :=
  v.bind (fun j => getField j key)

/-- JavaScript truthiness of a value; `none` is `undefined`. -/
def truthy : Option Json → Bool
  | none => false
  | some .null => false
  | some (.bool b) => b
  | some (.num n) => n != 0
  | some (.str s) => s != ""
  | some (.arr _) => true
  | some (.obj _) => true

/-- Assignment `obj[key] = v` on a JSON object: replaces the value in
place when the key exists, appends otherwise; leaves non-objects
unchanged (the source only assigns under a guard that forces an
object). -/
def setField : List (String × Json) → String → Json → List (String × Json)
  | [], key, v => [(key, v)]
  | (k, w) :: rest, key, v =>
    if k == key then (k, v) :: rest else (k, w) :: setField rest key v

/-- Assignment on a `Json` value (see `setField`). -/
def objSet : Json → String → Json → Json
  | .obj fields, key, v => .obj (setField fields key v)
  | j, _, _ => j

/-- Outcome of an awaited external call: a rejected promise carrying an
error text, or a returned value. -/
inductive ModelCall (α : Type) where
  | throws (err : String) : ModelCall α
  | returns (val : α) : ModelCall α

/-- A model response text together with the outcome of the JavaScript
built-in JSON.parse on it (ok value, or the thrown error text). -/
structure ParsedText where
  raw : String
  parsed : Except String Json

/-- Message object inside a Groq completion choice; `content` may be
null/undefined. -/
structure GroqMessage where
  content : Option String

/-- One choice of a Groq chat completion; `message` may be absent. -/
structure GroqChoice where
  message : Option GroqMessage

/-- The optional chain `completion.choices[0]?.message?.content` from
groqChat. -/
def extractContent (choices : List GroqChoice) : Option String :=
  match choices with
  | [] => none
  | c :: _ =>
    match c.message with
    | none => none
    | some m => m.content

/-- Reply text computed by groqChat from the completion:
`choices[0]?.message?.content ?? "(no reply)"`.  The nullish-coalescing
operator substitutes the placeholder only for null/undefined. -/
def groqChatReply (choices : List GroqChoice) : String :=
  (extractContent choices).getD "(no reply)"

/-- ASCII model of String.prototype.toLowerCase, as used on the message
before the keyword scan. -/
def jsToLowerCase (s : String) : String := String.mk (s.data.map Char.toLower)

/-- Whether the first character list starts with the second. -/
def leadsWith : List Char → List Char → Bool
  | _, [] => true
  | [], _ :: _ => false
  | a :: as, b :: bs => a == b && leadsWith as bs

/-- Whether the first character list has the second as a contiguous
sub-sequence. -/
def hasSub : List Char → List Char → Bool
  | [], needle => needle.isEmpty
  | a :: rest, needle => leadsWith (a :: rest) needle || hasSub rest needle

/-- Model of String.prototype.includes. -/
def strIncludes (s pat : String) : Bool := hasSub s.data pat.data

/-- Keyword fallback of autoMode: scan the lowercased message for
create-style terms, then pro-style terms, defaulting to general. -/
def keywordMode (message : String) : String :=
  let lower := jsToLowerCase message
  if strIncludes lower "create " || strIncludes lower "factory" || strIncludes lower "kinetic" then
    "create"
  else if strIncludes lower "forge" || strIncludes lower "fabric" || strIncludes lower "gradle" then
    "pro"
  else
    "general"

/-- The model-based path of autoMode: it yields a mode exactly when the
router call returns, its text parses as JSON, and the parsed value has a
`mode` field equal to one of the three mode strings; any other outcome
(thrown call, parse error, missing or unrecognized mode) yields none and
autoMode falls back to the keyword heuristic. -/
def routerVerdict (call : ModelCall ParsedText) : Option String :=
  match call with
  | .throws _ => none
  | .returns pt =>
    match pt.parsed with
    | .error _ => none
    | .ok j =>
      match getField j "mode" with
      | some (.str m) =>
        if m == "create" || m == "pro" || m == "general" then some m else none
      | _ => none

/-- autoMode from aiRouter.js: try the model-based classification; on
any failure of that path fall back to the keyword heuristic. -/
def autoMode (call : ModelCall ParsedText) (message : String) : String :=
  (routerVerdict call).getD (keywordMode message)

/-- Mode resolution of the chat route:
`mode === "auto" ? await autoMode(message) : mode`. -/
def classify (call : ModelCall ParsedText) (message explicitMode : String) : String :=
  if explicitMode == "auto" then autoMode call message else explicitMode

/-- The user-style record rendered by styleInstruction. -/
structure StyleProfile where
  tone : String
  detail : String
  emojis : String
  formatting : String

/-- The persona prompt templates imported from prompts.js; their text is
external to the core and carried as opaque strings. -/
structure Prompts where
  createPrompt : String
  proPrompt : String
  generalPrompt : String
  autoRouterPrompt : String

/-- basePromptForMode from aiRouter.js. -/
def basePromptForMode (p : Prompts) (mode : String) : String :=
  if mode == "create" then p.createPrompt
  else if mode == "pro" then p.proPrompt
  else p.generalPrompt

/-- styleInstruction from aiRouter.js: the trimmed template literal
listing the four profile fields. -/
def styleInstruction (profile : StyleProfile) : String :=
  "User style settings:\n- tone: " ++ profile.tone ++
  "\n- detail: " ++ profile.detail ++
  "\n- emojis: " ++ profile.emojis ++
  "\n- formatting: " ++ profile.formatting ++
  "\n\nRespect these settings while answering."

/-- One conversation turn of a project history. -/
structure Turn where
  role : String
  content : String

/-- Model of String.prototype.slice(0, n): the first n characters. -/
def strTake (s : String) (n : Nat) : String := String.mk (s.data.take n)

/-- One rendered history line: a turn as
a bracketed role followed by the content truncated to 200 characters. -/
def renderTurn (m : Turn) : String :=
  "[" ++ m.role ++ "] " ++ strTake m.content 200

/-- Model of Array.prototype.join(sep). -/
def joinSep (sep : String) : List String → String
  | [] => ""
  | [s] => s
  | s :: s2 :: rest => s ++ sep ++ joinSep sep (s2 :: rest)

/-- Model of conversation.slice(-4): the last four turns (all of them
when there are fewer). -/
def lastFour (l : List Turn) : List Turn := l.drop (l.length - 4)

/-- The historyText computation of the chat route: empty when there is
no conversation or it is empty, otherwise a header line followed by the
last four rendered turns. -/
def historyTextOf : Option (List Turn) → String
  | none => ""
  | some conv =>
    if conv.length == 0 then ""
    else "Recent project messages:\n" ++ joinSep "\n" ((lastFour conv).map renderTurn)

/-- The systemContent assembly of the chat route:
`[modePrompt, styleText, historyText].filter(Boolean).join("\n\n")`. -/
def compose (modePrompt styleText : String) (conversation : Option (List Turn)) : String :=
  joinSep "\n\n" (([modePrompt, styleText, historyTextOf conversation]).filter (fun s => s != ""))

/-- First-match association lookup in a string-keyed list. -/
def assocGet {α : Type} : List (String × α) → String → Option α
  | [], _ => none
  | (k, v) :: rest, key => if k == key then some v else assocGet rest key

/-- Update-or-insert on a string-keyed association list: applies f to
the present value (or to none) at the key, creating the entry if
absent. -/
def assocUpdate {α : Type} (f : Option α → α) : List (String × α) → String → List (String × α)
  | [], key => [(key, f none)]
  | (k, v) :: rest, key =>
    if k == key then (k, f (some v)) :: rest else (k, v) :: assocUpdate f rest key

/-- The external persistence state seen by the router: per-project
conversation histories (memory.js), per-project schematic lists
(memory.js), and the standalone blueprint-file sink
(schematicGenerator.js). -/
structure Store where
  projects : List (String × List Turn)
  schematics : List (String × List Json)
  blueprintFiles : List (String × Json)

/-- Conversation history of a named project, when the project exists. -/
def conversationOf (store : Store) (name : String) : Option (List Turn) :=
  assocGet store.projects name

/-- Modelled from the spec: the ConversationHistory store contract of
memory.js (not under src) — appendConversation(name, role, content)
appends exactly one turn to the named project, creating the project
on first write. -/
def appendConversation (store : Store) (name role content : String) : Store :=
  { store with
    projects := assocUpdate (fun c => c.getD [] ++ [⟨role, content⟩]) store.projects name }

/-- Modelled from the spec: the Schematic store contract of memory.js
(not under src) — saveSchematic(name, blueprint) persists the blueprint
under the named project, creating the project on first write. -/
def saveSchematicStore (store : Store) (name : String) (blueprint : Json) : Store :=
  { store with
    schematics := assocUpdate (fun c => c.getD [] ++ [blueprint]) store.schematics name }

/-- Modelled from the spec: the blueprint-file sink of
schematicGenerator.js (not under src) — saveBlueprintFile(name,
blueprint) writes the blueprint as the named file. -/
def saveBlueprintFileStore (store : Store) (name : String) (blueprint : Json) : Store :=
  { store with
    blueprintFiles := assocUpdate (fun _ => blueprint) store.blueprintFiles name }

/-- JavaScript truthiness of the optional projectName string:
undefined/null and the empty string are falsy. -/
def projectKey : Option String → Option String
  | none => none
  | some n => if n == "" then none else some n

/-- Body of a chat request; message is an arbitrary JSON value or
absent, mode defaults to "auto" at destructuring. -/
structure ChatReq where
  message : Option Json
  mode : String
  projectName : Option String

/-- Response of the chat route: 400 input validation, 200 success, or
the 500 catch-all. -/
inductive ChatResponse where
  | badRequest (error : String) : ChatResponse
  | ok (mode : String) (reply : String) : ChatResponse
  | serverError (error details : String) : ChatResponse

/-- The chat route handler from aiRouter.js.  The router call (used by
autoMode when mode is "auto") and the main chat call are the two Groq
invocations; the main call consumes the composed system content and the
user message, abstracted here as the call oracle. -/
def handleChat (p : Prompts) (profile : StyleProfile) (routerCall : ModelCall ParsedText)
    (chatCall : ModelCall (List GroqChoice)) (req : ChatReq) (store : Store) :
    ChatResponse × Store :=
  match req.message with
  | some (.str message) =>
    if message == "" then (.badRequest "Missing \x27message\x27 string", store)
    else
      let chosenMode := if req.mode == "auto" then autoMode routerCall message else req.mode
      let modePrompt := basePromptForMode p chosenMode
      let styleText := styleInstruction profile
      let conversation :=
        match projectKey req.projectName with
        | none => none
        | some name => conversationOf store name
      let _systemContent := compose modePrompt styleText conversation
      match chatCall with
      | .throws e => (.serverError "AI error" e, store)
      | .returns choices =>
        let reply := groqChatReply choices
        let store2 :=
          match projectKey req.projectName with
          | none => store
          | some name =>
            appendConversation (appendConversation store name "user" message) name "assistant" reply
        (.ok chosenMode reply, store2)
  | _ => (.badRequest "Missing \x27message\x27 string", store)

/-- Blueprint construction of the schematic route, downstream of the
model call: parse the response text (degrading to a parseError/raw
object on failure), then, when stress.machines is truthy, attach
stressEstimate computed by the external estimator on machines and
baseStress (baseStress defaulting to 256 when falsy). -/
def buildBlueprint (estimate : Json → Json → Json) (text : String)
    (parsed : Except String Json) : Json :=
  let blueprint : Json :=
    match parsed with
    | .ok j => j
    | .error e => .obj [("parseError", .str e), ("raw", .str text)]
  let machines := optGet (optGet (some blueprint) "stress") "machines"
  if truthy machines then
    let base := optGet (optGet (some blueprint) "stress") "baseStress"
    objSet blueprint "stressEstimate"
      (estimate (machines.getD .null) (if truthy base then base.getD .null else .num 256))
  else blueprint

/-- Body of a schematic request. -/
structure SchemReq where
  instructions : Option Json
  projectName : Option String

/-- Response of the schematic route: 400 input validation, 200 success
with the (structured or degraded) schematic, or the 500 catch-all. -/
inductive SchematicResponse where
  | badRequest (error : String) : SchematicResponse
  | okJson (schematic : Json) : SchematicResponse
  | serverError (error details : String) : SchematicResponse

/-- The schematic route handler from aiRouter.js: validate instructions,
invoke the blueprint model once, build the blueprint (degrading on parse
failure), persist through the two sinks when a project name is given,
and respond ok with the blueprint. -/
def handleSchematic (estimate : Json → Json → Json) (req : SchemReq)
    (modelCall : ModelCall ParsedText) (store : Store) : SchematicResponse × Store :=
  match req.instructions with
  | some (.str instructions) =>
    if instructions == "" then (.badRequest "Missing \x27instructions\x27 string", store)
    else
      match modelCall with
      | .throws e => (.serverError "Schematic AI error" e, store)
      | .returns pt =>
        let blueprint := buildBlueprint estimate pt.raw pt.parsed
        let store2 :=
          match projectKey req.projectName with
          | none => store
          | some name => saveBlueprintFileStore (saveSchematicStore store name blueprint) name blueprint
        (.okJson blueprint, store2)
  | _ => (.badRequest "Missing \x27instructions\x27 string", store)

/-- Content of the style-profile file, abstracted by the outcome of
JSON.parse on it; none means the file does not exist. -/
abbrev FileState := Option (Except String Json)

/-- The defaultProfile object of userProfile.js, as a JSON value. -/
def defaultProfileJson : Json :=
  .obj [("tone", .str "friendly"), ("detail", .str "medium"),
        ("emojis", .str "some"), ("formatting", .str "markdown")]

/-- loadUserProfile from userProfile.js, over the file state: when the
file is absent, write the defaults and return them; when it parses,
return the parsed value; when parsing throws, log and return the
defaults, leaving the file as it was. -/
def loadUserProfile : FileState → Json × FileState
  | none => (defaultProfileJson, some (.ok defaultProfileJson))
  | some (.ok j) => (j, some (.ok j))
  | some (.error e) => (defaultProfileJson, some (.error e))

/-- A JavaScript object whose property values may be undefined (`none`);
property order is insertion order, as spread and stringify observe it. -/
abbrev JsObj := List (String × Option Json)

/-- The defaultProfile object of userProfile.js, as a JS object. -/
def defaultProfileObj : JsObj :=
  [("tone", some (.str "friendly")), ("detail", some (.str "medium")),
   ("emojis", some (.str "some")), ("formatting", some (.str "markdown"))]

/-- Object spread `\x7b...a, ...b\x7d`: keys of a in order with values
overridden by b where b has the key (undefined values override too),
followed by the keys of b absent from a, in order. -/
def jsSpread (a b : JsObj) : JsObj :=
  a.map (fun kv =>
    match assocGet b kv.1 with
    | some v => (kv.1, v)
    | none => kv)
  ++ b.filter (fun kv => (assocGet a kv.1).isNone)

/-- JSON serialization of a JS object (JSON.stringify and res.json):
properties whose value is undefined are dropped. -/
def stringifyObj (o : JsObj) : Json :=
  .obj (o.filterMap (fun kv =>
    match kv.2 with
    | some v => some (kv.1, v)
    | none => none))

/-- saveUserProfile from userProfile.js: spread the given style over the
defaults, persist the stringified merge, and return the merged object.
Returns the merged JS object and the persisted JSON. -/
def saveUserProfile (style : JsObj) : JsObj × Json :=
  let merged := jsSpread defaultProfileObj style
  (merged, stringifyObj merged)

/-- The style-update route handler from aiRouter.js: destructure the
four known fields from the body (absent ones become undefined), save the
profile, and respond with the serialized merged profile.  Returns the
response profile JSON and the new file state; the prior file content is
never read by this path. -/
def handleStyle (body : Option Json) (_priorFile : FileState) : Json × FileState :=
  let get1 := fun (k : String) => body.bind (fun j => getField j k)
  let style : JsObj :=
    [("tone", get1 "tone"), ("detail", get1 "detail"),
     ("emojis", get1 "emojis"), ("formatting", get1 "formatting")]
  let result := saveUserProfile style
  (stringifyObj result.1, some (.ok result.2))

/-- Whether an optional request-body value is present and a string (of
any length); the claims about input validation quantify over the
complement of this predicate. -/
def isStringField : Option Json → Bool
  | some (.str _) => true
  | _ => false

theorem assocGet_update {α : Type} (f : Option α → α) (l : List (String × α)) (name : String) :
    assocGet (assocUpdate f l name) name = some (f (assocGet l name)) := by
  induction l with
  | nil => simp [assocGet, assocUpdate]
  | cons kv rest ih =>
    obtain ⟨k, v⟩ := kv
    cases h : (k == name) with
    | true => simp [assocGet, assocUpdate, h]
    | false => simp [assocGet, assocUpdate, h, ih]

theorem conversationOf_append (store : Store) (name role content : String) :
    conversationOf (appendConversation store name role content) name
      = some ((conversationOf store name).getD [] ++ [⟨role, content⟩]) := by
  simp [conversationOf, appendConversation, assocGet_update]

/-- C9: for every explicit mode among create, pro and general, and every
message and router-call outcome, classify returns the explicit mode
unchanged — the model and the message are never consulted. -/
theorem classify_explicit_identity (m : String)
    (hm : m = "create" ∨ m = "pro" ∨ m = "general")
    (call : ModelCall ParsedText) (msg : String) :
    classify call msg m = m := by
  have hne : (m == "auto") = false := by
    rcases hm with h | h | h <;> subst h <;> rfl
  simp [classify, hne]

/-- C9 witness: classify at mode "pro" on a concrete message with a
failing router call returns "pro". -/
theorem classify_explicit_identity_w :
    (("pro" : String) = "create" ∨ ("pro" : String) = "pro" ∨ ("pro" : String) = "general")
    ∧ classify (.throws "x") "hello" "pro" = "pro" :=
  ⟨by decide, classify_explicit_identity "pro" (by decide) (.throws "x") "hello"⟩

/-- C10: loadUserProfile is total at its interface: a file that exists
but fails JSON parsing yields the default profile and leaves the file
untouched; an absent file is initialized with the defaults, which are
returned.  The defaults are friendly/medium/some/markdown. -/
theorem loadUserProfile_total :
    (∀ e : String, loadUserProfile (some (.error e)) = (defaultProfileJson, some (.error e)))
    ∧ loadUserProfile none = (defaultProfileJson, some (.ok defaultProfileJson))
    ∧ defaultProfileJson
      = .obj [("tone", .str "friendly"), ("detail", .str "medium"),
              ("emojis", .str "some"), ("formatting", .str "markdown")] :=
  ⟨fun _ => rfl, rfl, rfl⟩

/-- C6 counterexample: a completion whose first choice carries the empty
string as content yields the empty reply, not the "(no reply)"
placeholder — the nullish-coalescing operator does not replace the empty
string. -/
theorem groq_empty_reply_cex :
    groqChatReply [⟨some ⟨some ""⟩⟩] = "" ∧ groqChatReply [⟨some ⟨some ""⟩⟩] ≠ "(no reply)" :=
  ⟨rfl, by decide⟩

/-- C6 amended: groqChat returns the "(no reply)" placeholder exactly
when the optional chain over the completion yields no content (no
choices, missing message, or null content); any present string content,
including the empty string, is returned unchanged. -/
theorem groq_reply_placeholder (choices : List GroqChoice) :
    (extractContent choices = none → groqChatReply choices = "(no reply)")
    ∧ ∀ s : String, extractContent choices = some s → groqChatReply choices = s := by
  refine ⟨fun h => ?_, fun s h => ?_⟩
  · rw [groqChatReply, h]; rfl
  · rw [groqChatReply, h]; rfl

/-- C6 amended witness: an empty choice list maps to the placeholder and
an empty-string content is passed through. -/
theorem groq_reply_placeholder_w :
    extractContent ([] : List GroqChoice) = none
    ∧ groqChatReply [] = "(no reply)"
    ∧ extractContent [⟨some ⟨some ""⟩⟩] = some ""
    ∧ groqChatReply [⟨some ⟨some ""⟩⟩] = "" :=
  ⟨rfl, (groq_reply_placeholder []).1 rfl, rfl,
    (groq_reply_placeholder [⟨some ⟨some ""⟩⟩]).2 "" rfl⟩

/-- C7 counterexample: after an earlier save that persisted detail as
"high", the partial update with tone "blunt" (and an unknown extra
field) returns a profile whose detail is absent — not the prior "high" —
and whose unknown field is dropped rather than preserved. -/
theorem style_update_cex :
    getField (stringifyObj (saveUserProfile [("detail", some (.str "high"))]).1) "detail"
      = some (.str "high")
    ∧ getField
        (handleStyle (some (.obj [("tone", .str "blunt"), ("custom", .str "x")]))
          (some (.ok (saveUserProfile [("detail", some (.str "high"))]).2))).1 "detail"
      = none
    ∧ getField
        (handleStyle (some (.obj [("tone", .str "blunt"), ("custom", .str "x")]))
          (some (.ok (saveUserProfile [("detail", some (.str "high"))]).2))).1 "detail"
      ≠ some (.str "high")
    ∧ getField
        (handleStyle (some (.obj [("tone", .str "blunt"), ("custom", .str "x")]))
          (some (.ok (saveUserProfile [("detail", some (.str "high"))]).2))).1 "custom"
      = none :=
  ⟨rfl, rfl, fun h => Option.noConfusion h, rfl⟩

/-- C7 amended: a style update with a partial body performs a full
overwrite rather than a merge with the prior save: the route
destructures only the four known fields, the absent ones arrive as
undefined and override the built-in defaults under object spread, and
serialization drops them — so only the supplied fields survive in the
returned and persisted profile, prior saved values are never read, and
unknown extra body fields are dropped. -/
theorem style_update_overwrites (t : String) (pf : FileState) :
    handleStyle (some (.obj [("tone", .str t), ("custom", .str "x")])) pf
      = (.obj [("tone", .str t)], some (.ok (.obj [("tone", .str t)]))) := rfl

/-- C2: when the model-based classification path fails for any reason
(thrown call, unparseable JSON, or a mode value outside the three
recognized ones — exactly the cases where routerVerdict is none),
autoMode returns the deterministic keyword result over the lowercased
message, which is always one of create, pro and general; in particular
the message "build a factory" yields "create".  autoMode is a total
function, so it never throws. -/
theorem autoMode_fallback_total (call : ModelCall ParsedText) (msg : String)
    (hmsg : msg ≠ "") (hfail : routerVerdict call = none) :
    autoMode call msg = keywordMode msg
    ∧ (autoMode call msg = "create" ∨ autoMode call msg = "pro"
        ∨ autoMode call msg = "general")
    ∧ autoMode call "build a factory" = "create" := by
  have h1 : autoMode call msg = keywordMode msg := by simp [autoMode, hfail]
  refine ⟨h1, ?_, ?_⟩
  · rw [h1]
    simp only [keywordMode]
    split_ifs <;> simp
  · simp only [autoMode, hfail, Option.getD_none]
    decide

/-- C2 witness: a thrown router call on the message "build a factory"
falls back to the keyword heuristic and yields "create". -/
theorem autoMode_fallback_total_w :
    routerVerdict (.throws "network error") = none
    ∧ (("build a factory" : String) ≠ "")
    ∧ autoMode (.throws "network error") "build a factory" = "create" :=
  ⟨rfl, by decide,
    (autoMode_fallback_total (.throws "network error") "build a factory" (by decide) rfl).2.2⟩

/-- C1: when the blueprint-model call returns a text whose JSON parse
throws, the schematic route responds ok with a blueprint that is exactly
the parseError/raw object (the parse error text and the original
response text), which carries no stressEstimate field. -/
theorem schematic_parse_degrades (estimate : Json → Json → Json) (instr : String)
    (hinstr : instr ≠ "") (pn : Option String) (store : Store) (text e : String) :
    (handleSchematic estimate ⟨some (.str instr), pn⟩ (.returns ⟨text, .error e⟩) store).1
      = .okJson (.obj [("parseError", .str e), ("raw", .str text)])
    ∧ getField (.obj [("parseError", .str e), ("raw", .str text)]) "stressEstimate" = none := by
  have hb : (instr == "") = false := by simp [hinstr]
  constructor
  · simp [handleSchematic, hb, buildBlueprint, optGet, getField, lookupField, truthy]
  · simp [getField, lookupField]

/-- An opaque stand-in for the external stress estimator, used only to
instantiate the C1 theorem on a concrete input. -/
def estA : Json → Json → Json := fun a b => .arr [a, b]

/-- C1 witness: a concrete non-JSON response degrades to the
parseError/raw blueprint and the route still answers ok. -/
theorem schematic_parse_degrades_w :
    (("go" : String) ≠ "")
    ∧ (handleSchematic estA ⟨some (.str "go"), none⟩
        (.returns ⟨"not json", .error "SyntaxError: Unexpected token"⟩) (Store.mk [] [] [])).1
      = .okJson (.obj [("parseError", .str "SyntaxError: Unexpected token"),
                       ("raw", .str "not json")]) :=
  ⟨by decide,
    (schematic_parse_degrades estA "go" (by decide) none (Store.mk [] [] [])
      "not json" "SyntaxError: Unexpected token").1⟩

/-- A sample structured blueprint with stress.machines 4 and
stress.baseStress 256, used by the C4 theorem and its witness. -/
def sampleBlueprint : Json :=
  .obj [("name", .str "mill"),
        ("stress", .obj [("machines", .num 4), ("baseStress", .num 256)])]

/-- C4: on a successfully parsed blueprint, when stress.machines is
truthy the route attaches stressEstimate computed by the external
estimator on machines and on baseStress defaulted to 256 when falsy;
when stress.machines is absent or falsy the blueprint is returned
unchanged, with no stressEstimate added.  On the sample blueprint with
machines 4 and baseStress 256 the attached estimate is
estimate (num 4) (num 256). -/
theorem stress_enrichment (estimate : Json → Json → Json) (text : String) (j : Json) :
    (truthy (optGet (optGet (some j) "stress") "machines") = true →
      buildBlueprint estimate text (.ok j)
        = objSet j "stressEstimate"
            (estimate ((optGet (optGet (some j) "stress") "machines").getD .null)
              (if truthy (optGet (optGet (some j) "stress") "baseStress")
               then (optGet (optGet (some j) "stress") "baseStress").getD .null
               else .num 256)))
    ∧ (truthy (optGet (optGet (some j) "stress") "machines") = false →
      buildBlueprint estimate text (.ok j) = j)
    ∧ getField (buildBlueprint estimate text (.ok sampleBlueprint)) "stressEstimate"
      = some (estimate (.num 4) (.num 256)) := by
  refine ⟨fun h => ?_, fun h => ?_, rfl⟩
  · simp [buildBlueprint, h]
  · simp [buildBlueprint, h]

/-- An opaque stand-in for the external stress estimator, used only to
instantiate the C4 theorem on a concrete input. -/
def estB : Json → Json → Json := fun a b => .arr [b, a]

/-- C4 witness: the enrichment theorem applied to the sample blueprint
with a concrete estimator. -/
theorem stress_enrichment_w :
    truthy (optGet (optGet (some sampleBlueprint) "stress") "machines") = true
    ∧ buildBlueprint estB "txt" (.ok sampleBlueprint)
        = objSet sampleBlueprint "stressEstimate"
            (estB ((optGet (optGet (some sampleBlueprint) "stress") "machines").getD .null)
              (if truthy (optGet (optGet (some sampleBlueprint) "stress") "baseStress")
               then (optGet (optGet (some sampleBlueprint) "stress") "baseStress").getD .null
               else .num 256)) :=
  ⟨by decide, (stress_enrichment estB "txt" sampleBlueprint).1 (by decide)⟩

/-- C3: for a chat request with a project name, a successful chat-model
call appends exactly two turns to that project history — the user
message first, then the assistant reply — while a thrown chat-model call
leaves the whole store untouched (appends happen only after a reply is
obtained). -/
theorem chat_appends (p : Prompts) (profile : StyleProfile) (routerCall : ModelCall ParsedText)
    (choices : List GroqChoice) (msg name mode : String) (store : Store)
    (hmsg : msg ≠ "") (hname : name ≠ "") :
    conversationOf
        (handleChat p profile routerCall (.returns choices)
          ⟨some (.str msg), mode, some name⟩ store).2 name
      = some ((conversationOf store name).getD []
              ++ [⟨"user", msg⟩, ⟨"assistant", groqChatReply choices⟩])
    ∧ ∀ e : String,
        (handleChat p profile routerCall (.throws e)
          ⟨some (.str msg), mode, some name⟩ store).2 = store := by
  have hm : (msg == "") = false := by simp [hmsg]
  have hn : (name == "") = false := by simp [hname]
  constructor
  · simp [handleChat, hm, projectKey, hn, conversationOf_append]
  · intro e
    simp [handleChat, hm]

/-- C3 witness: on an empty store, a successful exchange on project p1
leaves exactly the user turn followed by the assistant turn. -/
theorem chat_appends_w :
    (("hi" : String) ≠ "") ∧ (("p1" : String) ≠ "")
    ∧ conversationOf
        (handleChat (Prompts.mk "c" "p" "g" "r")
          (StyleProfile.mk "friendly" "medium" "some" "markdown")
          (.throws "x") (.returns [⟨some ⟨some "hello"⟩⟩])
          ⟨some (.str "hi"), "general", some "p1"⟩ (Store.mk [] [] [])).2 "p1"
      = some [⟨"user", "hi"⟩, ⟨"assistant", "hello"⟩] :=
  ⟨by decide, by decide,
    (chat_appends (Prompts.mk "c" "p" "g" "r")
      (StyleProfile.mk "friendly" "medium" "some" "markdown")
      (.throws "x") [⟨some ⟨some "hello"⟩⟩] "hi" "p1" "general" (Store.mk [] [] [])
      (by decide) (by decide)).1⟩

/-- C5: compose omits the history block entirely when the conversation
is null or empty (the output is the join of the remaining non-empty
components), and for a history of more than four turns the history text
is the header followed by exactly the last four turns in original order,
each rendered by renderTurn as a bracketed role and the content
truncated to at most 200 characters. -/
theorem compose_history (mp st : String) (conv : List Turn) (hlen : 4 < conv.length) :
    compose mp st none = joinSep "\n\n" (([mp, st]).filter (fun s => s != ""))
    ∧ compose mp st (some []) = joinSep "\n\n" (([mp, st]).filter (fun s => s != ""))
    ∧ historyTextOf (some conv)
        = "Recent project messages:\n"
          ++ joinSep "\n" ((conv.drop (conv.length - 4)).map renderTurn)
    ∧ (conv.drop (conv.length - 4)).length = 4
    ∧ conv.take (conv.length - 4) ++ conv.drop (conv.length - 4) = conv
    ∧ (∀ m : Turn, renderTurn m = "[" ++ m.role ++ "] " ++ strTake m.content 200)
    ∧ (∀ m : Turn, (strTake m.content 200).length ≤ 200) := by
  refine ⟨?_, ?_, ?_, ?_, ?_, fun m => rfl, fun m => ?_⟩
  · simp [compose, historyTextOf, List.filter]
  · simp [compose, historyTextOf, List.filter]
  · have h0 : (conv.length == 0) = false := by
      simp only [beq_eq_false_iff_ne]
      omega
    simp [historyTextOf, h0, lastFour]
  · rw [List.length_drop]
    omega
  · exact List.take_append_drop _ _
  · show (m.content.data.take 200).length ≤ 200
    rw [List.length_take]
    exact Nat.min_le_left _ _

/-- C5 witness: a five-turn history renders the header and its last four
turns; the first two conjuncts are exercised on concrete prompt and
style strings. -/
theorem compose_history_w :
    4 < ([⟨"user", "a"⟩, ⟨"assistant", "b"⟩, ⟨"user", "c"⟩,
          ⟨"assistant", "d"⟩, ⟨"user", "e"⟩] : List Turn).length
    ∧ historyTextOf (some [⟨"user", "a"⟩, ⟨"assistant", "b"⟩, ⟨"user", "c"⟩,
          ⟨"assistant", "d"⟩, ⟨"user", "e"⟩])
      = "Recent project messages:\n"
        ++ joinSep "\n"
            ((([⟨"user", "a"⟩, ⟨"assistant", "b"⟩, ⟨"user", "c"⟩,
                ⟨"assistant", "d"⟩, ⟨"user", "e"⟩] : List Turn).drop
              (([⟨"user", "a"⟩, ⟨"assistant", "b"⟩, ⟨"user", "c"⟩,
                 ⟨"assistant", "d"⟩, ⟨"user", "e"⟩] : List Turn).length - 4)).map renderTurn) :=
  ⟨by decide,
    (compose_history "mode prompt" "style text"
      [⟨"user", "a"⟩, ⟨"assistant", "b"⟩, ⟨"user", "c"⟩, ⟨"assistant", "d"⟩, ⟨"user", "e"⟩]
      (by decide)).2.2.1⟩

/-- An opaque stand-in for the external stress estimator, used only to
instantiate the C8 theorem on a concrete input. -/
def estC : Json → Json → Json := fun _ _ => .null

/-- C8: a chat request whose message is missing or not a string is
rejected immediately with the exact error text, and a schematic request
whose instructions are missing or not a string likewise — in both cases
for every possible model-call outcome (so no model call is consulted)
and with the store unchanged. -/
theorem missing_field_rejected (m : Option Json) (hm : isStringField m = false)
    (p : Prompts) (profile : StyleProfile) (routerCall : ModelCall ParsedText)
    (chatCall : ModelCall (List GroqChoice)) (estimate : Json → Json → Json)
    (schemCall : ModelCall ParsedText) (mode : String) (pn : Option String) (store : Store) :
    handleChat p profile routerCall chatCall ⟨m, mode, pn⟩ store
      = (.badRequest "Missing \x27message\x27 string", store)
    ∧ handleSchematic estimate ⟨m, pn⟩ schemCall store
      = (.badRequest "Missing \x27instructions\x27 string", store) := by
  cases m with
  | none => exact ⟨rfl, rfl⟩
  | some j =>
    cases j with
    | str s => simp [isStringField] at hm
    | null => exact ⟨rfl, rfl⟩
    | bool b => exact ⟨rfl, rfl⟩
    | num n => exact ⟨rfl, rfl⟩
    | arr es => exact ⟨rfl, rfl⟩
    | obj fs => exact ⟨rfl, rfl⟩

/-- C8 witness: a body with no message (and no instructions) is rejected
by both routes with throwing model oracles, showing no call is made. -/
theorem missing_field_rejected_w :
    isStringField none = false
    ∧ handleChat (Prompts.mk "c" "p" "g" "r") (StyleProfile.mk "f" "m" "s" "md")
        (.throws "x") (.throws "y") ⟨none, "auto", none⟩ (Store.mk [] [] [])
      = (.badRequest "Missing \x27message\x27 string", Store.mk [] [] [])
    ∧ handleSchematic estC ⟨none, none⟩ (.throws "z") (Store.mk [] [] [])
      = (.badRequest "Missing \x27instructions\x27 string", Store.mk [] [] []) :=
  ⟨rfl,
    (missing_field_rejected none rfl (Prompts.mk "c" "p" "g" "r")
      (StyleProfile.mk "f" "m" "s" "md") (.throws "x") (.throws "y") estC
      (.throws "z") "auto" none (Store.mk [] [] [])).1,
    (missing_field_rejected none rfl (Prompts.mk "c" "p" "g" "r")
      (StyleProfile.mk "f" "m" "s" "md") (.throws "x") (.throws "y") estC
      (.throws "z") "auto" none (Store.mk [] [] [])).2⟩

end CreateArchitect
